import Mathlib

/-!
Verification of `excalibur_api_monitoring/excalibur_logger.py`.

The file shallowly embeds the logger: Python values that matter for
truthiness tests become the `PyVal` type, JSON documents become the `Json`
type, the database connection becomes a record of query operations that may
fail (`Conn`, queries returning `Except`), the lookup resolvers and the
parameter-binding part of `_insert_log` become pure Lean functions, the
request/response record builders become pure functions, and the
queue/worker/shutdown lifecycle becomes a labelled transition system.
-/

namespace ExcaliburLogger

/-- A Python scalar value, as far as the logger inspects one: the logger only
ever tests truthiness and converts to `int`. -/
inductive PyVal where
  | vNone
  | vInt (n : Int)
  | vBool (b : Bool)
  | vStr (s : String)
  deriving Repr, DecidableEq

/-- Python truthiness on `PyVal`: `None`, `0`, `False` and `""` are falsy. -/
def pyTruthy : PyVal → Bool
  | .vNone => false
  | .vInt n => n != 0
  | .vBool b => b
  | .vStr s => s != ""

/-- Python truthiness of an optional string (`None` and `""` are falsy). -/
def optStrTruthy : Option String → Bool
  | none => false
  | some s => s != ""

/-- Surrounding-whitespace stripping on a character list. -/
def stripChars (cs : List Char) : List Char :=
  ((cs.dropWhile Char.isWhitespace).reverse.dropWhile Char.isWhitespace).reverse

/-- Integer parsing as Python `int(str)` does it: strip surrounding
whitespace, allow one optional sign, then require a nonempty digit run. -/
def pyParseInt (s : String) : Option Int :=
  let core : List Char → Option Int := fun cs =>
    if cs ≠ [] ∧ cs.all Char.isDigit then
      some (cs.foldl (fun acc c => acc * 10 + (Int.ofNat (c.toNat - '0'.toNat))) 0)
    else none
  match stripChars s.data with
  | '-' :: rest => (core rest).map (fun n => -n)
  | '+' :: rest => core rest
  | cs => core cs

/-- Python `int(x)` on a `PyVal`; `.error` models the `TypeError` /
`ValueError` the conversion raises on `None` or a non-numeric string. -/
def pyInt : PyVal → Except String Int
  | .vNone => .error "TypeError"
  | .vInt n => .ok n
  | .vBool b => .ok (if b then 1 else 0)
  | .vStr s =>
    match pyParseInt s with
    | some n => .ok n
    | none => .error "ValueError"

/-- A JSON document (also standing in for the Python dicts/lists the logger
handles after `json.loads`). -/
inductive Json where
  | jNull
  | jBool (b : Bool)
  | jInt (n : Int)
  | jStr (s : String)
  | jArr (xs : List Json)
  | jObj (fields : List (String × Json))

/-- Python truthiness of a JSON value. -/
def jsonTruthy : Json → Bool
  | .jNull => false
  | .jBool b => b
  | .jInt n => n != 0
  | .jStr s => s != ""
  | .jArr xs => !xs.isEmpty
  | .jObj fs => !fs.isEmpty

/-- String escaping as `json.dumps` performs it for the common escapes. -/
def json_dumps_string (s : String) : String :=
  "\"" ++ String.join (s.data.map (fun c =>
    if c = '"' then "\\\""
    else if c = '\\' then "\\\\"
    else if c = '\n' then "\\n"
    else if c = '\t' then "\\t"
    else if c = '\r' then "\\r"
    else String.singleton c)) ++ "\""

mutual

/-- Serialization as Python `json.dumps` with its default separators. -/
def json_dumps : Json → String
  | .jNull => "null"
  | .jBool true => "true"
  | .jBool false => "false"
  | .jInt n => toString n
  | .jStr s => json_dumps_string s
  | .jArr xs => "[" ++ json_dumps_elems xs ++ "]"
  | .jObj fs => "\x7b" ++ json_dumps_fields fs ++ "\x7d"

/-- Comma-separated serialization of array elements. -/
def json_dumps_elems : List Json → String
  | [] => ""
  | [x] => json_dumps x
  | x :: y :: rest => json_dumps x ++ ", " ++ json_dumps_elems (y :: rest)

/-- Comma-separated serialization of object fields. -/
def json_dumps_fields : List (String × Json) → String
  | [] => ""
  | [(k, v)] => json_dumps_string k ++ ": " ++ json_dumps v
  | (k, v) :: y :: rest =>
    json_dumps_string k ++ ": " ++ json_dumps v ++ ", " ++ json_dumps_fields (y :: rest)

end

/-- Key lookup in a JSON object (Python dict lookup; first binding wins,
duplicate keys cannot arise from a Python dict). -/
def jObjFind (fs : List (String × Json)) (k : String) : Option Json :=
  match fs.find? (fun p => p.1 == k) with
  | some p => some p.2
  | none => none

/-- Whether the first character list starts with the second. -/
def charsStartWith : List Char → List Char → Bool
  | _, [] => true
  | [], _ :: _ => false
  | c :: cs, d :: ds => c == d && charsStartWith cs ds

/-- Whether the first character list contains the second as a contiguous run. -/
def charsContain : List Char → List Char → Bool
  | hay, needle =>
    if charsStartWith hay needle then true
    else
      match hay with
      | [] => false
      | _ :: t => charsContain t needle

/-- Substring test, as Python `key in someString` performs it. -/
def strContainsSub (hay needle : String) : Bool :=
  charsContain hay.data needle.data

/-- Python `key in x`: key membership for a dict, element membership for a
list, substring test for a string; raises `TypeError` otherwise. -/
def jsonMember (k : String) : Json → Except String Bool
  | .jObj fs => .ok ((jObjFind fs k).isSome)
  | .jArr xs => .ok (xs.any (fun x => match x with | .jStr s => s == k | _ => false))
  | .jStr s => .ok (strContainsSub s k)
  | _ => .error "TypeError"

/-- Python `x[key]` with a string key: dict lookup (KeyError on a missing
key), `TypeError` on any non-dict. -/
def jsonGetItem (j : Json) (k : String) : Except String Json :=
  match j with
  | .jObj fs =>
    match jObjFind fs k with
    | some v => .ok v
    | none => .error "KeyError"
  | _ => .error "TypeError"

/-- Python `len(x)`: length of a string, list or dict; `TypeError` otherwise. -/
def jsonLen : Json → Except String Int
  | .jStr s => .ok s.length
  | .jArr xs => .ok xs.length
  | .jObj fs => .ok fs.length
  | _ => .error "TypeError"

/-- Python `x[0]`: first element of a list (IndexError when empty), first
character of a string, `KeyError` on a dict (its keys are strings),
`TypeError` otherwise. -/
def jsonIndexZero : Json → Except String Json
  | .jArr (x :: _) => .ok x
  | .jArr [] => .error "IndexError"
  | .jStr s =>
    match s.data with
    | c :: _ => .ok (.jStr (String.singleton c))
    | [] => .error "IndexError"
  | .jObj _ => .error "KeyError"
  | _ => .error "TypeError"

/-- Python `x.get(key)`: `None` on a missing key; `AttributeError` when `x`
is not a dict. -/
def jsonDictGet (j : Json) (k : String) : Except String Json :=
  match j with
  | .jObj fs => .ok ((jObjFind fs k).getD .jNull)
  | _ => .error "AttributeError"

/-- Python `x.get(key, default)`. -/
def jsonDictGetD (j : Json) (k : String) (d : Json) : Except String Json :=
  match j with
  | .jObj fs => .ok ((jObjFind fs k).getD d)
  | _ => .error "AttributeError"

/-!
## The database connection

`_insert_log` borrows one connection and hands it to the five resolvers.
Each SQL round trip the resolvers perform is modelled as one field of
`Conn`; an `Except.error` outcome models the database driver raising. The
two selects of the read-insert-reread pattern are separate fields so that
a failure anywhere in the pattern is expressible.
-/

/-- The behaviour of the borrowed connection, one field per SQL round trip
issued by the resolvers of `excalibur_logger.py`. -/
structure Conn where
  /-- `SELECT HttpMethodID FROM HttpMethod WHERE HttpMethodName = :method` -/
  selHttpMethod : String → Except String (Option Int)
  /-- `SELECT ErrorSourceID FROM ErrorSource WHERE ErrorSourceName = :source`, first read -/
  selErrorSource1 : String → Except String (Option Int)
  /-- `INSERT INTO ErrorSource (ErrorSourceName) VALUES (:source)` plus the commit -/
  insErrorSource : String → Except String Unit
  /-- the re-read of ErrorSource after the auto-insert -/
  selErrorSource2 : String → Except String (Option Int)
  /-- `SELECT EnvironmentID FROM Environment WHERE EnvironmentName = :name` -/
  selEnvironment : String → Except String (Option Int)
  /-- `SELECT EnvironmentID FROM Environment WHERE EnvironmentName = 'Development'` -/
  selEnvironmentDevelopment : Except String (Option Int)
  /-- `SELECT FileTypeID FROM FileType WHERE FileTypeName = :type`, first read -/
  selFileType1 : String → Except String (Option Int)
  /-- `INSERT INTO FileType (FileTypeName) VALUES (:type)` plus the commit -/
  insFileType : String → Except String Unit
  /-- the re-read of FileType after the auto-insert -/
  selFileType2 : String → Except String (Option Int)

/-!
## The lookup resolvers

Each Python resolver is a falsy-input check followed by a `try` block whose
`except` clause returns `None`. Each one is embedded as a `..._body`
function in the `Except` monad (the statements inside the `try`) plus the
resolver itself, which runs the body and maps any raised exception to
`none`, exactly where the source's `try` / `except` sits.
-/

/-- Body of the `try` in `_get_http_method_id` (lines 181-187): one select,
returning the found id, or `None` after the not-found warning. -/
def get_http_method_id_body (conn : Conn) (http_method : String) :
    Except String (Option Int) := do
  let result ← conn.selHttpMethod http_method
  match result with
  | some i => return some i
  | none => return none

/-- `_get_http_method_id` (lines 177-190): `None` for falsy input, then the
`try` body with every exception caught and turned into `None`. -/
def get_http_method_id (conn : Conn) (http_method : Option String) : Option Int :=
  if !optStrTruthy http_method then none
  else
    match get_http_method_id_body conn (http_method.getD "") with
    | .ok v => v
    | .error _ => none

/-- `_get_http_status_code_id` (lines 192-205): falsy input gives `None`;
otherwise `int(status_code)` is returned, with a conversion error caught
and turned into `None`. The connection is never consulted. -/
def get_http_status_code_id (_conn : Conn) (status_code : PyVal) : Option Int :=
  if !pyTruthy status_code then none
  else
    match pyInt status_code with
    | .ok n => some n
    | .error _ => none

/-- Body of the `try` in `_get_error_source_id` (lines 211-219): select,
and on a miss auto-insert, commit, and re-read (`result[0] if result else
None`). -/
def get_error_source_id_body (conn : Conn) (error_source : String) :
    Except String (Option Int) := do
  let result ← conn.selErrorSource1 error_source
  match result with
  | some i => return some i
  | none => do
    let _ ← conn.insErrorSource error_source
    let result2 ← conn.selErrorSource2 error_source
    return result2

/-- `_get_error_source_id` (lines 207-222): `None` for falsy input, then
the auto-provisioning `try` body with every exception caught into `None`. -/
def get_error_source_id (conn : Conn) (error_source : Option String) : Option Int :=
  if !optStrTruthy error_source then none
  else
    match get_error_source_id_body conn (error_source.getD "") with
    | .ok v => v
    | .error _ => none

/-- Body of the `try` in `_get_environment_id` (lines 228-239): select by
name; on a miss for exactly `'Dev'`, retry with the literal
`'Development'`; `None` after the warning otherwise. -/
def get_environment_id_body (conn : Conn) (environment : String) :
    Except String (Option Int) := do
  let result ← conn.selEnvironment environment
  match result with
  | some i => return some i
  | none =>
    if environment == "Dev" then do
      let result2 ← conn.selEnvironmentDevelopment
      match result2 with
      | some i => return some i
      | none => return none
    else
      return none

/-- The falsy-default applied by `_get_environment_id` before its `try`
(lines 226-227): a falsy environment becomes `'Dev'`. -/
def environmentDefault (environment : Option String) : String :=
  if !optStrTruthy environment then "Dev" else environment.getD ""

/-- `_get_environment_id` (lines 224-242): default falsy input to `'Dev'`,
then the `try` body with every exception caught into `None`. -/
def get_environment_id (conn : Conn) (environment : Option String) : Option Int :=
  match get_environment_id_body conn (environmentDefault environment) with
  | .ok v => v
  | .error _ => none

/-- Body of the `try` in `_get_file_type_id` (lines 248-256): select, and
on a miss auto-insert, commit, and re-read. -/
def get_file_type_id_body (conn : Conn) (file_type : String) :
    Except String (Option Int) := do
  let result ← conn.selFileType1 file_type
  match result with
  | some i => return some i
  | none => do
    let _ ← conn.insFileType file_type
    let result2 ← conn.selFileType2 file_type
    return result2

/-- `_get_file_type_id` (lines 244-259): `None` for falsy input, then the
auto-provisioning `try` body with every exception caught into `None`. -/
def get_file_type_id (conn : Conn) (file_type : Option String) : Option Int :=
  if !optStrTruthy file_type then none
  else
    match get_file_type_id_body conn (file_type.getD "") with
    | .ok v => v
    | .error _ => none

/-!
## The insert pipeline

`_insert_log` (lines 93-175) resolves the categorical fields through the
resolvers, applies the sentinel defaults, and binds the SQL parameters.
A `LogData` models the `log_data` dict restricted to the keys the insert
reads; an absent key is `none` (`PyVal.vNone` for the status code, since
`dict.get` returns `None` there). The parameter dictionary built at lines
153-169 becomes `InsertParams`.
-/

/-- The `log_data` dict, restricted to the keys `_insert_log` reads. -/
structure LogData where
  api_endpoint : Option String := none
  http_method : Option String := none
  http_status_code : PyVal := .vNone
  error_source : Option String := none
  environment : Option String := none
  file_type : Option String := none
  exception_message : Option String := none
  is_success : PyVal := .vNone
  retry_count : Option Int := none
  matter_id : Option String := none
  file_name : Option String := none

/-- The bound parameters of the `INSERT INTO APICall` statement. -/
structure InsertParams where
  endpoint : Option String
  http_method_id : Option Int
  http_status_code_id : Option Int
  is_success : Int
  error_source_id : Int
  exception_message : Option String
  retry_count : Int
  environment_id : Option Int
  matter_id : Option String
  file_name : Option String
  file_type_id : Int
  deriving Repr, DecidableEq

/-- The resolution and parameter-binding part of `_insert_log`
(lines 100-169): resolver calls with the dict-level defaults (`'POST'` for
a missing method, `'Dev'` for a missing environment), the sentinel
defaults `5` / `49` for unresolved error source / file type, the 0/1
coercion of the success flag, the 500-character exception-message
truncation, and the retry-count default `0`. -/
def insert_log_params (conn : Conn) (log_data : LogData) : InsertParams :=
  let http_method_id := get_http_method_id conn (some (log_data.http_method.getD "POST"))
  let http_status_code_id := get_http_status_code_id conn log_data.http_status_code
  let error_source_id0 := get_error_source_id conn log_data.error_source
  let environment_id := get_environment_id conn (some (log_data.environment.getD "Dev"))
  let file_type_id0 := get_file_type_id conn log_data.file_type
  let error_source_id :=
    match error_source_id0 with
    | none => 5
    | some i => i
  let file_type_id :=
    match file_type_id0 with
    | none => 49
    | some i => i
  { endpoint := log_data.api_endpoint
    http_method_id := http_method_id
    http_status_code_id := http_status_code_id
    is_success := if pyTruthy log_data.is_success then 1 else 0
    error_source_id := error_source_id
    exception_message :=
      if optStrTruthy log_data.exception_message then
        some ((log_data.exception_message.getD "").take 500)
      else none
    retry_count := log_data.retry_count.getD 0
    environment_id := environment_id
    matter_id := log_data.matter_id
    file_name := log_data.file_name
    file_type_id := file_type_id }

/-!
## `log_excalibur_request`: the request-payload fields (lines 325-334)
-/

/-- A request payload as the builder accepts one: a text payload or a dict. -/
inductive ReqPayload where
  | pText (s : String)
  | pDict (fields : List (String × Json))

/-- Python truthiness of a request payload (`""` and the empty dict are
falsy). -/
def reqPayloadTruthy : ReqPayload → Bool
  | .pText s => s != ""
  | .pDict fs => !fs.isEmpty

/-- The serialized form of the payload: a dict goes through `json.dumps`
(line 328), a text payload is used as given. -/
def reqPayloadSerialize : ReqPayload → String
  | .pText s => s
  | .pDict fs => json_dumps (.jObj fs)

/-- The `request_payload_size` and `request_payload` fields the request
builder stores (lines 326-334): nothing for a falsy payload; otherwise the
length, and the text truncated to 100000 characters with the
`'... [truncated]'` marker when it exceeds 100000 characters. -/
def log_excalibur_request_payload (request_payload : Option ReqPayload) :
    Option Nat × Option String :=
  match request_payload with
  | none => (none, none)
  | some p =>
    if reqPayloadTruthy p then
      let payload := reqPayloadSerialize p
      let size := payload.length
      if payload.length > 100000 then
        (some size, some (payload.take 100000 ++ "... [truncated]"))
      else
        (some size, some payload)
    else (none, none)

/-!
## `log_excalibur_response`: message extraction and success inference

The `try` block at lines 364-378 parses the payload and probes two
envelope shapes; its `except: pass` restores the caller-supplied values.
A text payload is modelled together with the outcome `json.loads` would
give on it (`loads`), since the builder consults the text only through
`json.loads`; a malformed text carries an `.error` outcome.
-/

/-- A response payload: text (with its `json.loads` outcome) or an
already-structured value. -/
inductive RespPayload where
  | rText (s : String) (loads : Except String Json)
  | rJson (j : Json)

/-- Python truthiness of a response payload. -/
def respPayloadTruthy : RespPayload → Bool
  | .rText s _ => s != ""
  | .rJson j => jsonTruthy j

/-- Lines 365-368: `json.loads` for a text payload, the value itself
otherwise. -/
def respPayloadJson : RespPayload → Except String Json
  | .rText _ loads => loads
  | .rJson j => .ok j

/-- The statements of the `try` block after parsing (lines 371-376), in
the `Except` monad: probe `EnvelopeBody` first, else `EnvelopeFooter`
(which also overrides `exception_thrown` and `exception_message`), else
leave everything unchanged. Returns the final
`(response_message, exception_thrown, exception_message)`. -/
def extractBody (response_json : Json) (exception_thrown exception_message : Json) :
    Except String (Json × Json × Json) := do
  let hasBody ← jsonMember "EnvelopeBody" response_json
  let bodyCond ←
    if hasBody then do
      let b ← jsonGetItem response_json "EnvelopeBody"
      let n ← jsonLen b
      pure (decide (n > 0))
    else
      pure false
  if bodyCond then do
    let b ← jsonGetItem response_json "EnvelopeBody"
    let first ← jsonIndexZero b
    let msg ← jsonDictGet first "ResultMessage"
    return (msg, exception_thrown, exception_message)
  else do
    let hasFooter ← jsonMember "EnvelopeFooter" response_json
    if hasFooter then do
      let footer ← jsonGetItem response_json "EnvelopeFooter"
      let msg ← jsonDictGet footer "ResponseMessage"
      let et ← jsonDictGetD footer "ExceptionThrown" (.jBool false)
      let em ← jsonDictGet footer "ExceptionMessage"
      return (msg, et, em)
    else
      return (.jNull, exception_thrown, exception_message)

/-- The whole extraction (lines 362-378): `response_message` starts as
`None`; a falsy payload skips the block; a parse failure or any exception
inside the `try` restores the caller-supplied `exception_thrown` /
`exception_message` and leaves `response_message` as `None`. -/
def extract_response_fields (response_payload : Option RespPayload)
    (exception_thrown exception_message : Json) : Json × Json × Json :=
  match response_payload with
  | none => (.jNull, exception_thrown, exception_message)
  | some p =>
    if respPayloadTruthy p then
      match respPayloadJson p with
      | .error _ => (.jNull, exception_thrown, exception_message)
      | .ok response_json =>
        match extractBody response_json exception_thrown exception_message with
        | .ok t => t
        | .error _ => (.jNull, exception_thrown, exception_message)
    else (.jNull, exception_thrown, exception_message)

/-- The fields of the record `log_excalibur_response` builds that depend
on its success / exception logic (lines 384-397). -/
structure ResponseLogData where
  http_status_code : Int
  response_message : Json
  is_success : Bool
  exception_thrown : Json
  exception_message : Json
  error_source : Option String
  retry_count : Int

/-- `log_excalibur_response` (lines 342-397), restricted to the fields of
`ResponseLogData`: run the extraction, then infer the success flag as
`http_status_code == 200 and not exception_thrown` when the caller did
not supply one (lines 380-382). -/
def log_excalibur_response_record (http_status_code : Int)
    (response_payload : Option RespPayload) (is_success : Option Bool)
    (exception_thrown exception_message : Json)
    (error_source : Option String) (retry_count : Int) : ResponseLogData :=
  let ext := extract_response_fields response_payload exception_thrown exception_message
  let response_message := ext.1
  let exception_thrown := ext.2.1
  let exception_message := ext.2.2
  let is_success :=
    match is_success with
    | some b => b
    | none => decide (http_status_code = 200) && !jsonTruthy exception_thrown
  { http_status_code := http_status_code
    response_message := response_message
    is_success := is_success
    exception_thrown := exception_thrown
    exception_message := exception_message
    error_source := error_source
    retry_count := retry_count }

/-!
## The queue / worker / shutdown lifecycle

`log_api_call` (producers), `_process_logs` (the worker loop, lines 71-91)
and `shutdown` (lines 261-270) interact through `queue.Queue`. The
interleaving of the producer threads, the worker thread and the thread
calling `shutdown` is modelled as a labelled transition system over
`LoggerState`. `unfinished` is the queue's internal unfinished-task
counter: `put` increments it, `task_done` decrements it, and
`Queue.join()` returns exactly when it is zero. `holding` is the record
the worker has popped but not yet marked done. The claims concern records
submitted before `shutdown()` is called, so `submitProducer` steps are
enabled only before the `shutdownCall` step. Records are identified by
natural numbers.
-/

/-- The program counter of the thread executing `shutdown()`:
before the call, blocked in `log_queue.join()` (line 267), joining the
worker thread with the 5-second timeout (line 269, after `is_running` was
set false at line 268), and returned. -/
inductive ShutdownPC where
  | notCalled
  | waitingJoin
  | joiningThread
  | returned
  deriving Repr, DecidableEq

/-- A global state of the logger: the queue contents, the record the
worker currently holds, the records already processed, the queue's
unfinished-task counter, the `is_running` flag, the shutdown thread's
program counter, and (ghost) the list of all records ever submitted. -/
structure LoggerState where
  queue : List Nat
  holding : Option Nat
  processed : List Nat
  unfinished : Nat
  is_running : Bool
  pc : ShutdownPC
  submitted : List Nat
  deriving Repr, DecidableEq

/-- The state right after `__init__`: empty queue, running flag set,
shutdown not called. -/
def initState : LoggerState :=
  { queue := [], holding := none, processed := [], unfinished := 0,
    is_running := true, pc := .notCalled, submitted := [] }

/-- Labels of the transitions: a producer submitting, the worker popping
(`log_queue.get`), the worker finishing a record (`_insert_log` plus
`task_done`), the `shutdown()` call, `log_queue.join()` returning together
with `is_running = False`, and the worker-thread join completing or
timing out after its 5-second bound. -/
inductive StepLabel where
  | submitProducer (r : Nat)
  | workerPop
  | workerDone
  | shutdownCall
  | queueJoinReturn
  | threadJoinOk
  | threadJoinTimeout
  deriving Repr, DecidableEq

/-- One interleaved step of the producers, the worker and the shutdown
thread. -/
inductive Step : StepLabel → LoggerState → LoggerState → Prop where
  /-- `log_api_call` (line 69): `put` appends and increments the
  unfinished-task counter; only before `shutdown()` is called. -/
  | submitProducer (r : Nat) {s : LoggerState} :
      s.pc = .notCalled →
      Step (.submitProducer r) s
        { s with queue := s.queue ++ [r], unfinished := s.unfinished + 1,
                 submitted := s.submitted ++ [r] }
  /-- `log_queue.get(timeout=1)` (line 79) succeeding: the worker pops the
  head of a nonempty queue. -/
  | workerPop {r : Nat} {rest : List Nat} {s : LoggerState} :
      s.holding = none →
      s.queue = r :: rest →
      Step .workerPop s { s with queue := rest, holding := some r }
  /-- `_insert_log` followed by `task_done` (lines 82-85): the held record
  is processed and the unfinished-task counter decremented
  (`_insert_log` never raises, its body is one `try` / `except`). -/
  | workerDone {r : Nat} {s : LoggerState} :
      s.holding = some r →
      Step .workerDone s
        { s with holding := none, processed := s.processed ++ [r],
                 unfinished := s.unfinished - 1 }
  /-- `shutdown()` is entered and blocks in `log_queue.join()` (line 267). -/
  | shutdownCall {s : LoggerState} :
      s.pc = .notCalled →
      Step .shutdownCall s { s with pc := .waitingJoin }
  /-- `log_queue.join()` returns — which requires the unfinished-task
  counter to be zero — and line 268 sets `is_running = False`. -/
  | queueJoinReturn {s : LoggerState} :
      s.pc = .waitingJoin →
      s.unfinished = 0 →
      Step .queueJoinReturn s { s with pc := .joiningThread, is_running := false }
  /-- `worker_thread.join(timeout=5)` (line 269) returns with the worker
  finished; `shutdown()` returns. -/
  | threadJoinOk {s : LoggerState} :
      s.pc = .joiningThread →
      Step .threadJoinOk s { s with pc := .returned }
  /-- `worker_thread.join(timeout=5)` (line 269) hits its 5-second bound
  without the worker having exited; `shutdown()` returns anyway. -/
  | threadJoinTimeout {s : LoggerState} :
      s.pc = .joiningThread →
      Step .threadJoinTimeout s { s with pc := .returned }

/-- The states reachable from `initState` by interleaved steps. -/
inductive Reachable : LoggerState → Prop where
  | init : Reachable initState
  | step {s t : LoggerState} {l : StepLabel} :
      Reachable s → Step l s t → Reachable t

/-- The held record as a list (empty or a singleton). -/
def holdList : Option Nat → List Nat
  | none => []
  | some r => [r]

/-- The global invariant of the lifecycle: the ghost submission list is
conserved across queue / holding / processed; the unfinished-task counter
counts the queue plus the held record; the running flag is only cleared
after the drain (counter zero) and never while shutdown is uncalled; and
past `log_queue.join()` the counter stays zero with the flag cleared. -/
def Inv (s : LoggerState) : Prop :=
  s.submitted = s.processed ++ holdList s.holding ++ s.queue ∧
  s.unfinished = s.queue.length + (holdList s.holding).length ∧
  (s.is_running = false → s.pc ≠ .notCalled ∧ s.unfinished = 0) ∧
  (s.pc = .notCalled → s.is_running = true) ∧
  ((s.pc = .joiningThread ∨ s.pc = .returned) → s.unfinished = 0 ∧ s.is_running = false)

theorem inv_init : Inv initState := by
  refine ⟨rfl, rfl, ?_, fun _ => rfl, ?_⟩
  · intro h; exact absurd h (by simp [initState])
  · intro h; rcases h with h | h <;> exact absurd h (by simp [initState])

theorem inv_step {l : StepLabel} {s t : LoggerState} (hinv : Inv s) (hstep : Step l s t) :
    Inv t := by
  obtain ⟨h1, h2, h3, h4, h5⟩ := hinv
  cases hstep with
  | submitProducer r hpc =>
    refine ⟨?_, ?_, ?_, ?_, ?_⟩ <;> simp only []
    · simp [h1, List.append_assoc]
    · simp [h2]; omega
    · intro hf; exact absurd (h4 hpc) (by simp [hf])
    · intro _; exact h4 hpc
    · intro h; simp [hpc] at h
  | workerPop hhold hq =>
    refine ⟨?_, ?_, ?_, ?_, ?_⟩ <;> simp only []
    · simp [h1, hhold, hq, holdList]
    · simp [h2, hhold, hq, holdList]
    · intro hf
      rcases h3 hf with ⟨hpc, hz⟩
      rw [h2, hq, hhold] at hz
      simp [holdList] at hz
    · exact h4
    · intro h
      rcases h5 h with ⟨hz, _⟩
      rw [h2, hq, hhold] at hz
      simp [holdList] at hz
  | workerDone hhold =>
    refine ⟨?_, ?_, ?_, ?_, ?_⟩ <;> simp only []
    · simp [h1, hhold, holdList, List.append_assoc]
    · simp [h2, hhold, holdList]
    · intro hf
      rcases h3 hf with ⟨hpc, hz⟩
      rw [h2, hhold] at hz
      simp [holdList] at hz
    · exact h4
    · intro h
      rcases h5 h with ⟨hz, _⟩
      rw [h2, hhold] at hz
      simp [holdList] at hz
  | shutdownCall hpc =>
    refine ⟨h1, h2, ?_, ?_, ?_⟩
    · intro hf; simp at hf; exact absurd (h4 hpc) (by simp [hf])
    · intro h; simp at h
    · intro h; rcases h with h | h <;> simp at h
  | queueJoinReturn hpc hz =>
    refine ⟨h1, h2, ?_, ?_, ?_⟩
    · intro _; exact ⟨by simp, hz⟩
    · intro h; simp at h
    · intro _; exact ⟨hz, rfl⟩
  | threadJoinOk hpc =>
    rcases h5 (Or.inl hpc) with ⟨hz, hf⟩
    refine ⟨h1, h2, ?_, ?_, ?_⟩
    · intro _; exact ⟨by simp, hz⟩
    · intro h; simp at h
    · intro _; exact ⟨hz, hf⟩
  | threadJoinTimeout hpc =>
    rcases h5 (Or.inl hpc) with ⟨hz, hf⟩
    refine ⟨h1, h2, ?_, ?_, ?_⟩
    · intro _; exact ⟨by simp, hz⟩
    · intro h; simp at h
    · intro _; exact ⟨hz, hf⟩

theorem reachable_inv {s : LoggerState} (h : Reachable s) : Inv s := by
  induction h with
  | init => exact inv_init
  | step _ hstep ih => exact inv_step ih hstep

theorem drained_of_unfinished_zero {s : LoggerState} (hinv : Inv s)
    (hz : s.unfinished = 0) :
    s.queue = [] ∧ s.holding = none ∧ s.processed = s.submitted := by
  obtain ⟨h1, h2, _, _, _⟩ := hinv
  rw [h2] at hz
  have hq : s.queue = [] := by
    cases hq : s.queue with
    | nil => rfl
    | cons a l => rw [hq] at hz; simp at hz
  have hh : s.holding = none := by
    cases hh : s.holding with
    | none => rfl
    | some r => rw [hh] at hz; simp [holdList] at hz
  refine ⟨hq, hh, ?_⟩
  rw [h1, hq, hh]
  simp [holdList]

/-!
## Concrete connections

Two concrete `Conn` instances to evaluate the pipeline on: one over small
pre-populated lookup tables, and one whose every round trip raises.
-/

/-- A connection over small pre-populated lookup tables: `POST` / `GET`
are known methods, the environment table knows only `Development` and
`Production` (so the short form `Dev` misses), and the auto-provision
tables re-read id 7 (error source) and id 9 (file type) after an insert. -/
def tableConn : Conn where
  selHttpMethod := fun m =>
    .ok (if m == "POST" then some 1 else if m == "GET" then some 2 else none)
  selErrorSource1 := fun _ => .ok none
  insErrorSource := fun _ => .ok ()
  selErrorSource2 := fun _ => .ok (some 7)
  selEnvironment := fun n => .ok (if n == "Production" then some 3 else none)
  selEnvironmentDevelopment := .ok (some 2)
  selFileType1 := fun _ => .ok none
  insFileType := fun _ => .ok ()
  selFileType2 := fun _ => .ok (some 9)

/-- A connection whose every round trip raises. -/
def failConn : Conn where
  selHttpMethod := fun _ => .error "OperationalError"
  selErrorSource1 := fun _ => .error "OperationalError"
  insErrorSource := fun _ => .error "OperationalError"
  selErrorSource2 := fun _ => .error "OperationalError"
  selEnvironment := fun _ => .error "OperationalError"
  selEnvironmentDevelopment := .error "OperationalError"
  selFileType1 := fun _ => .error "OperationalError"
  insFileType := fun _ => .error "OperationalError"
  selFileType2 := fun _ => .error "OperationalError"

/-!
## Witness states for the lifecycle

A concrete execution: one record is submitted, popped and processed, then
`shutdown()` is called, `log_queue.join()` returns, and the thread join
times out.
-/

/-- After `submitProducer 7` from `initState`. -/
def witState1 : LoggerState :=
  { queue := [7], holding := none, processed := [], unfinished := 1,
    is_running := true, pc := .notCalled, submitted := [7] }

/-- After the worker pops record 7. -/
def witState2 : LoggerState :=
  { queue := [], holding := some 7, processed := [], unfinished := 1,
    is_running := true, pc := .notCalled, submitted := [7] }

/-- After the worker inserts record 7 and marks it done. -/
def witState3 : LoggerState :=
  { queue := [], holding := none, processed := [7], unfinished := 0,
    is_running := true, pc := .notCalled, submitted := [7] }

/-- After `shutdown()` is entered. -/
def witState4 : LoggerState :=
  { queue := [], holding := none, processed := [7], unfinished := 0,
    is_running := true, pc := .waitingJoin, submitted := [7] }

/-- After `log_queue.join()` returns and `is_running` is cleared. -/
def witState5 : LoggerState :=
  { queue := [], holding := none, processed := [7], unfinished := 0,
    is_running := false, pc := .joiningThread, submitted := [7] }

/-!
## The claims
-/

/-- C1: in every reachable state, once the running flag is cleared — which
happens only after `log_queue.join()` returns — the queue is fully
drained: no record is queued or held and every submitted record has been
processed; in particular this holds whenever `shutdown()` has returned;
and from the state where the worker thread is being joined with the
5-second timeout, the timeout elapsing still takes `shutdown()` to its
return, so a join timeout does not prevent `shutdown()` from returning. -/
theorem C1_shutdown_drains_before_return (s : LoggerState) (h : Reachable s) :
    (s.is_running = false →
      s.queue = [] ∧ s.holding = none ∧ s.processed = s.submitted) ∧
    (s.pc = .returned →
      s.queue = [] ∧ s.holding = none ∧ s.processed = s.submitted ∧
        s.is_running = false) ∧
    (s.pc = .joiningThread →
      Step .threadJoinTimeout s { s with pc := .returned }) := by
  have hinv := reachable_inv h
  obtain ⟨h1, h2, h3, h4, h5⟩ := hinv
  refine ⟨?_, ?_, ?_⟩
  · intro hf
    exact drained_of_unfinished_zero ⟨h1, h2, h3, h4, h5⟩ (h3 hf).2
  · intro hret
    rcases h5 (Or.inr hret) with ⟨hz, hf⟩
    obtain ⟨hq, hh, hp⟩ := drained_of_unfinished_zero ⟨h1, h2, h3, h4, h5⟩ hz
    exact ⟨hq, hh, hp, hf⟩
  · intro hj
    exact Step.threadJoinTimeout hj

/-- Witness for C1: the concrete execution reaching `witState5` satisfies
the hypotheses, and the theorem yields the drained queue, the processed
submissions, and the timeout step to the returned state. -/
theorem C1_witness :
    Reachable witState5 ∧
    witState5.queue = [] ∧ witState5.holding = none ∧
    witState5.processed = witState5.submitted ∧
    Step .threadJoinTimeout witState5 { witState5 with pc := .returned } := by
  have r0 : Reachable initState := Reachable.init
  have r1 : Reachable witState1 := Reachable.step r0 (Step.submitProducer 7 rfl)
  have r2 : Reachable witState2 := Reachable.step r1 (Step.workerPop rfl rfl)
  have r3 : Reachable witState3 := Reachable.step r2 (Step.workerDone rfl)
  have r4 : Reachable witState4 := Reachable.step r3 (Step.shutdownCall rfl)
  have r5 : Reachable witState5 := Reachable.step r4 (Step.queueJoinReturn rfl rfl)
  have h := C1_shutdown_drains_before_return witState5 r5
  obtain ⟨hq, hh, hp⟩ := h.1 rfl
  exact ⟨r5, hq, hh, hp, h.2.2 rfl⟩

/-- C2 counterexample: the empty-string payload has length 0, no more
than 100000 characters, yet the builder stores no `request_payload` field
at all (the `if request_payload:` truthiness test at line 326 skips the
whole block), instead of storing it unmodified as the claim states. -/
theorem C2_counterexample :
    ("" : String).length ≤ 100000 ∧
    (log_excalibur_request_payload (some (.pText ""))).2 = none ∧
    (log_excalibur_request_payload (some (.pText ""))).2 ≠ some "" := by
  exact ⟨by decide, rfl, by simp [log_excalibur_request_payload, reqPayloadTruthy]⟩

/-- C2 (amended): for every truthy request payload — any payload other
than an absent one, the empty string, or the empty dict — the stored
`request_payload` field equals the first 100000 characters of the
serialized payload followed by `'... [truncated]'` when the serialized
length exceeds 100000, and the serialized payload unmodified otherwise,
a dict being serialized to JSON text first; a falsy payload stores no
payload fields at all. -/
theorem C2_payload_truncation (p : ReqPayload) :
    (reqPayloadTruthy p = true →
      ((reqPayloadSerialize p).length > 100000 →
        log_excalibur_request_payload (some p) =
          (some (reqPayloadSerialize p).length,
           some ((reqPayloadSerialize p).take 100000 ++ "... [truncated]"))) ∧
      ((reqPayloadSerialize p).length ≤ 100000 →
        log_excalibur_request_payload (some p) =
          (some (reqPayloadSerialize p).length, some (reqPayloadSerialize p)))) ∧
    (reqPayloadTruthy p = false →
      log_excalibur_request_payload (some p) = (none, none)) := by
  constructor
  · intro ht
    constructor
    · intro hlen
      simp [log_excalibur_request_payload, ht, hlen]
    · intro hlen
      have hn : ¬ (reqPayloadSerialize p).length > 100000 := by omega
      simp [log_excalibur_request_payload, ht, hn]
  · intro ht
    simp [log_excalibur_request_payload, ht]

/-- Witness for C2: the three-character text payload `"abc"` is truthy,
its length is within the bound, and the builder stores it unmodified with
its size. -/
theorem C2_witness :
    reqPayloadTruthy (.pText "abc") = true ∧
    ("abc" : String).length ≤ 100000 ∧
    log_excalibur_request_payload (some (.pText "abc")) = (some 3, some "abc") := by
  refine ⟨by decide, by decide, ?_⟩
  exact ((C2_payload_truncation (.pText "abc")).1 (by decide)).2 (by decide)

/-- C3: for every record, the bound exception-message parameter of the
insert equals the first 500 characters of the record's exception message
when a non-empty message is present, and null when the message is absent
(line 162). -/
theorem C3_exception_message_truncation (conn : Conn) (d : LogData) :
    (d.exception_message = none →
      (insert_log_params conn d).exception_message = none) ∧
    (∀ s, d.exception_message = some s → s ≠ "" →
      (insert_log_params conn d).exception_message = some (s.take 500)) := by
  constructor
  · intro h
    simp [insert_log_params, optStrTruthy, h]
  · intro s hs hne
    simp [insert_log_params, optStrTruthy, hs, hne]

/-- Witness for C3: a concrete record with the 600-character message
`'a' * 600` has exactly its first 500 characters bound. -/
theorem C3_witness :
    ({ exception_message := some (String.mk (List.replicate 600 'a')) } :
        LogData).exception_message = some (String.mk (List.replicate 600 'a')) ∧
    String.mk (List.replicate 600 'a') ≠ "" ∧
    (insert_log_params tableConn
        { exception_message := some (String.mk (List.replicate 600 'a')) }).exception_message =
      some ((String.mk (List.replicate 600 'a')).take 500) ∧
    (String.mk (List.replicate 600 'a')).take 500 = String.mk (List.replicate 500 'a') := by
  have hne : String.mk (List.replicate 600 'a') ≠ "" := by
    intro h
    have h2 := congrArg (fun s => s.data.length) h
    rw [show ("" : String) = String.mk [] from rfl] at h2
    simp only [List.length_replicate, List.length_nil] at h2
    exact absurd h2 (by decide)
  refine ⟨rfl, hne, ?_, ?_⟩
  · exact (C3_exception_message_truncation tableConn _).2 _ rfl hne
  · rw [String.take_eq]
    simp only [List.take_replicate]
    norm_num

/-- C4: when `is_success` is not explicitly supplied, the response
builder's success flag equals `http_status_code == 200 and not
exception_thrown` with `exception_thrown` as possibly overridden by the
`EnvelopeFooter` extraction (lines 371-382); in particular status 200
with no exception yields true, status 500 with an exception yields false,
and a footer carrying `ExceptionThrown: true` overrides the caller's
`False` even at status 200. -/
theorem C4_success_inference (status : Int) (payload : Option RespPayload)
    (et em : Json) (es : Option String) (rc : Int) :
    (log_excalibur_response_record status payload none et em es rc).is_success =
      (decide (status = 200) &&
        !jsonTruthy (extract_response_fields payload et em).2.1) ∧
    (log_excalibur_response_record 200 none none (.jBool false) .jNull none 0).is_success
      = true ∧
    (log_excalibur_response_record 500 none none (.jBool true) .jNull none 0).is_success
      = false ∧
    (log_excalibur_response_record 200
        (some (.rJson (.jObj [("EnvelopeFooter",
          .jObj [("ExceptionThrown", .jBool true)])])))
        none (.jBool false) .jNull none 0).is_success = false := by
  exact ⟨rfl, rfl, rfl, rfl⟩

/-- C5: in the insert pipeline, a record with an absent error source binds
the sentinel key 5, a record with an absent file type binds the sentinel
key 49 (lines 109-114), and a record with an absent environment resolves
with the default `'Dev'`; when the `'Dev'` lookup misses, the resolver
retries with the long-form `'Development'` before giving up
(lines 233-236). -/
theorem C5_sentinel_defaults (conn : Conn) (d : LogData) :
    (d.error_source = none → (insert_log_params conn d).error_source_id = 5) ∧
    (d.file_type = none → (insert_log_params conn d).file_type_id = 49) ∧
    (d.environment = none →
      (insert_log_params conn d).environment_id =
        get_environment_id conn (some "Dev")) ∧
    (∀ i, d.environment = none →
      conn.selEnvironment "Dev" = .ok none →
      conn.selEnvironmentDevelopment = .ok (some i) →
      (insert_log_params conn d).environment_id = some i) := by
  refine ⟨?_, ?_, ?_, ?_⟩
  · intro h
    simp [insert_log_params, get_error_source_id, optStrTruthy, h]
  · intro h
    simp [insert_log_params, get_file_type_id, optStrTruthy, h]
  · intro h
    simp [insert_log_params, h]
  · intro i h hdev hlong
    simp [insert_log_params, h, get_environment_id, environmentDefault,
      optStrTruthy, get_environment_id_body, hdev, hlong, Bind.bind, Except.bind,
      Pure.pure, Except.pure]

/-- Witness for C5: the empty record over `tableConn` — whose environment
table misses `'Dev'` but knows `'Development'` with id 2 — binds error
source 5, file type 49, and environment 2. -/
theorem C5_witness :
    ({} : LogData).error_source = none ∧
    ({} : LogData).file_type = none ∧
    ({} : LogData).environment = none ∧
    tableConn.selEnvironment "Dev" = .ok none ∧
    tableConn.selEnvironmentDevelopment = .ok (some 2) ∧
    (insert_log_params tableConn {}).error_source_id = 5 ∧
    (insert_log_params tableConn {}).file_type_id = 49 ∧
    (insert_log_params tableConn {}).environment_id = some 2 := by
  have h := C5_sentinel_defaults tableConn {}
  exact ⟨rfl, rfl, rfl, rfl, rfl, h.1 rfl, h.2.1 rfl, h.2.2.2 2 rfl rfl rfl⟩

/-- C6: none of the five resolver operations raises to its caller: for
each one, whenever the body of its `try` block — the underlying queries,
or the integer conversion for the status code — raises, the resolver
returns `None`, treating the failure as a miss. -/
theorem C6_resolvers_never_raise (conn : Conn) :
    (∀ m e, get_http_method_id_body conn m = .error e →
      get_http_method_id conn (some m) = none) ∧
    (∀ v e, pyInt v = .error e →
      get_http_status_code_id conn v = none) ∧
    (∀ s e, get_error_source_id_body conn s = .error e →
      get_error_source_id conn (some s) = none) ∧
    (∀ v e, get_environment_id_body conn (environmentDefault v) = .error e →
      get_environment_id conn v = none) ∧
    (∀ s e, get_file_type_id_body conn s = .error e →
      get_file_type_id conn (some s) = none) := by
  refine ⟨?_, ?_, ?_, ?_, ?_⟩
  · intro m e h
    by_cases ht : optStrTruthy (some m)
    · simp only [get_http_method_id, ht, Bool.not_true, Bool.false_eq_true,
        if_false, Option.getD_some] at *
      rw [h]
    · simp [get_http_method_id, ht]
  · intro v e h
    by_cases ht : pyTruthy v
    · simp only [get_http_status_code_id, ht, Bool.not_true, Bool.false_eq_true,
        if_false]
      rw [h]
    · simp [get_http_status_code_id, ht]
  · intro s e h
    by_cases ht : optStrTruthy (some s)
    · simp only [get_error_source_id, ht, Bool.not_true, Bool.false_eq_true,
        if_false, Option.getD_some]
      rw [h]
    · simp [get_error_source_id, ht]
  · intro v e h
    simp only [get_environment_id]
    rw [h]
  · intro s e h
    by_cases ht : optStrTruthy (some s)
    · simp only [get_file_type_id, ht, Bool.not_true, Bool.false_eq_true,
        if_false, Option.getD_some]
      rw [h]
    · simp [get_file_type_id, ht]

/-- Witness for C6: over `failConn`, whose every query raises, each of the
five resolvers returns `None` on a concrete input (the status-code body's
failure is the conversion of the non-numeric `'abc'`). -/
theorem C6_witness :
    get_http_method_id_body failConn "POST" = .error "OperationalError" ∧
    get_http_method_id failConn (some "POST") = none ∧
    pyInt (.vStr "abc") = .error "ValueError" ∧
    get_http_status_code_id failConn (.vStr "abc") = none ∧
    get_error_source_id_body failConn "Excalibur" = .error "OperationalError" ∧
    get_error_source_id failConn (some "Excalibur") = none ∧
    get_environment_id_body failConn (environmentDefault (some "Prod")) =
      .error "OperationalError" ∧
    get_environment_id failConn (some "Prod") = none ∧
    get_file_type_id_body failConn "PDF" = .error "OperationalError" ∧
    get_file_type_id failConn (some "PDF") = none := by
  have h := C6_resolvers_never_raise failConn
  refine ⟨rfl, h.1 "POST" "OperationalError" rfl, rfl,
    h.2.1 (.vStr "abc") "ValueError" rfl, rfl,
    h.2.2.1 "Excalibur" "OperationalError" rfl, rfl,
    h.2.2.2.1 (some "Prod") "OperationalError" rfl, rfl,
    h.2.2.2.2 "PDF" "OperationalError" rfl⟩

/-- C7 counterexample: the status-code input 0 parses to the integer 0,
yet resolution returns `None` rather than the parsed integer, because the
absence check at line 198 uses truthiness; so resolution is not the
identity transform on every parseable input. -/
theorem C7_counterexample :
    pyInt (.vInt 0) = .ok 0 ∧
    get_http_status_code_id tableConn (.vInt 0) = none := by
  exact ⟨rfl, rfl⟩

/-- C7 (amended): for every truthy status-code input, resolution is an
identity transform requiring no table access — it returns the input
parsed to an integer, and `None` (with a logged warning) when the input
is unparseable; a falsy input (0, False, the empty string, None) returns
`None` without parsing; and the result never depends on the connection. -/
theorem C7_status_code_identity (conn conn2 : Conn) (v : PyVal) :
    get_http_status_code_id conn v = get_http_status_code_id conn2 v ∧
    (pyTruthy v = true →
      get_http_status_code_id conn v = (pyInt v).toOption) ∧
    (pyTruthy v = false → get_http_status_code_id conn v = none) := by
  refine ⟨rfl, ?_, ?_⟩
  · intro ht
    simp only [get_http_status_code_id, ht, Bool.not_true, Bool.false_eq_true,
      if_false]
    cases h : pyInt v <;> simp [Except.toOption]
  · intro ht
    simp [get_http_status_code_id, ht]

/-- Witness for C7: the truthy input 404 resolves to 404 on any
connection, the truthy non-numeric input `'abc'` resolves to `None`, and
the falsy input `''` resolves to `None` without parsing. -/
theorem C7_witness :
    pyTruthy (.vInt 404) = true ∧
    get_http_status_code_id tableConn (.vInt 404) = some 404 ∧
    pyTruthy (.vStr "abc") = true ∧
    get_http_status_code_id failConn (.vStr "abc") = none ∧
    pyTruthy (.vStr "") = false ∧
    get_http_status_code_id tableConn (.vStr "") = none := by
  refine ⟨by decide, ?_, by decide, ?_, by decide, ?_⟩
  · exact (C7_status_code_identity tableConn failConn (.vInt 404)).2.1 (by decide)
  · have h2 := (C7_status_code_identity failConn tableConn (.vStr "abc")).2.1 (by decide)
    rw [show pyInt (.vStr "abc") = Except.error "ValueError" from rfl] at h2
    exact h2
  · exact (C7_status_code_identity tableConn failConn (.vStr "")).2.2 (by decide)

/-- C8: the response builder never raises from message extraction: when
the payload fails to parse as JSON, or any step of probing the envelope
shapes raises, the built record's response message is absent (`None`) and
the caller-supplied exception fields are untouched (lines 361-378). -/
theorem C8_extraction_never_raises (p : RespPayload) (et em : Json)
    (status : Int) (isOk : Option Bool) (es : Option String) (rc : Int) :
    (∀ e, respPayloadJson p = .error e →
      extract_response_fields (some p) et em = (.jNull, et, em)) ∧
    (∀ rj e, respPayloadJson p = .ok rj → extractBody rj et em = .error e →
      extract_response_fields (some p) et em = (.jNull, et, em)) ∧
    (∀ e, respPayloadJson p = .error e →
      (log_excalibur_response_record status (some p) isOk et em es rc).response_message
        = .jNull) := by
  refine ⟨?_, ?_, ?_⟩
  · intro e h
    by_cases ht : respPayloadTruthy p
    · simp only [extract_response_fields, ht, if_true, h]
    · simp [extract_response_fields, ht]
  · intro rj e hok hbody
    by_cases ht : respPayloadTruthy p
    · simp only [extract_response_fields, ht, if_true, hok, hbody]
    · simp [extract_response_fields, ht]
  · intro e h
    have hext : extract_response_fields (some p) et em = (.jNull, et, em) := by
      by_cases ht : respPayloadTruthy p
      · simp only [extract_response_fields, ht, if_true, h]
      · simp [extract_response_fields, ht]
    simp [log_excalibur_response_record, hext]

/-- Witness for C8: a concrete malformed-JSON text payload leaves the
response message absent and the exception fields untouched, in the
extraction and in the built record. -/
theorem C8_witness :
    respPayloadJson (.rText "not json" (.error "Expecting value")) =
      .error "Expecting value" ∧
    extract_response_fields
        (some (.rText "not json" (.error "Expecting value"))) (.jBool false) .jNull =
      (.jNull, .jBool false, .jNull) ∧
    (log_excalibur_response_record 200
        (some (.rText "not json" (.error "Expecting value")))
        none (.jBool false) .jNull none 0).response_message = .jNull := by
  refine ⟨rfl, ?_, ?_⟩
  · exact (C8_extraction_never_raises (.rText "not json" (.error "Expecting value"))
      (.jBool false) .jNull 200 none none 0).1 "Expecting value" rfl
  · exact (C8_extraction_never_raises (.rText "not json" (.error "Expecting value"))
      (.jBool false) .jNull 200 none none 0).2.2 "Expecting value" rfl

/-- C9: the status-code resolver treats every falsy input as absent: the
integer 0, the boolean False and the empty string all resolve to `None` —
even though 0 converts to the integer 0 — because the absence check at
line 198 is `if not status_code` rather than an explicit `None` test. -/
theorem C9_falsy_status_code_is_absent (conn : Conn) :
    get_http_status_code_id conn (.vInt 0) = none ∧
    get_http_status_code_id conn (.vBool false) = none ∧
    get_http_status_code_id conn (.vStr "") = none ∧
    get_http_status_code_id conn .vNone = none ∧
    pyTruthy (.vInt 0) = false ∧
    pyInt (.vInt 0) = .ok 0 := by
  exact ⟨rfl, rfl, rfl, rfl, rfl, rfl⟩

/-- C10: a record carrying no `http_method` field is resolved against the
literal default `'POST'` (line 101): its bound method id is exactly what
resolving `'POST'` yields — the id of `'POST'` when the table has it —
and the whole bound parameter set is identical to that of the same record
with an explicit `'POST'` method. -/
theorem C10_missing_method_is_post (conn : Conn) (d : LogData)
    (h : d.http_method = none) :
    (insert_log_params conn d).http_method_id =
      get_http_method_id conn (some "POST") ∧
    (∀ i, conn.selHttpMethod "POST" = .ok (some i) →
      (insert_log_params conn d).http_method_id = some i) ∧
    insert_log_params conn d =
      insert_log_params conn { d with http_method := some "POST" } := by
  refine ⟨?_, ?_, ?_⟩
  · simp [insert_log_params, h]
  · intro i hi
    simp [insert_log_params, h, get_http_method_id, optStrTruthy,
      get_http_method_id_body, hi, Bind.bind, Except.bind, Pure.pure, Except.pure]
  · simp [insert_log_params, h]

/-- Witness for C10: the empty record over `tableConn`, whose method
table maps `'POST'` to 1, binds method id 1 — indistinguishable from an
explicit POST record. -/
theorem C10_witness :
    ({} : LogData).http_method = none ∧
    tableConn.selHttpMethod "POST" = .ok (some 1) ∧
    (insert_log_params tableConn {}).http_method_id = some 1 ∧
    insert_log_params tableConn {} =
      insert_log_params tableConn { http_method := some "POST" } := by
  have h := C10_missing_method_is_post tableConn {} rfl
  exact ⟨rfl, rfl, h.2.1 1 rfl, h.2.2⟩

end ExcaliburLogger
